import Mathlib

/-!
Shallow embedding of the Kanchan chilled-water billing application:
the order charge calculator (src/src/utils/receipt.ts and the inline
copies in the Orders page), the daily can-ledger holding computation
(the DailyUpdate page), the billing-page ledger totals, the order
routes (src/server/routes/orders.routes.js) and the order-form
validation (src/src/pages/OrdersForm.tsx).  JavaScript numbers are
modelled as `Int` (every quantity the application handles is integral)
and possibly-undefined fields as `Option`.
-/

namespace Kanchan

/-- JS `x || 0` on a possibly-undefined number: `undefined` and `0` are
falsy, every other number is returned unchanged.  Also models
`parseInt(s) || 0` and `Number(x) || 0`, with `none` standing for a
value that parses to `NaN`. -/
def jsOrZeroI : Option Int → Int
  | none => 0
  | some v => if v = 0 then 0 else v

/-- JS `!s` on a possibly-undefined string: `undefined` and the empty
string are falsy. -/
def jsFalsyStr : Option String → Bool
  | none => true
  | some s => s = ""

/-- Value held by one order-form field at runtime: the initial state
and values fetched from the API are numbers, but `handleChange`
(OrdersForm.tsx) stores `e.target.value` — the raw input string —
verbatim, so an edited field holds a string. -/
inductive JSVal where
  | num : Int → JSVal
  | str : String → JSVal

/-- Digit-string value: `none` when the characters are empty or not
all decimal digits. -/
def parseDigits (cs : List Char) : Option Nat :=
  match cs with
  | [] => none
  | _ =>
    cs.foldl (fun acc c =>
      match acc with
      | none => none
      | some n => if c.isDigit then some (n * 10 + (c.toNat - 48)) else none)
      (some 0)

/-- JS `ToNumber` on the values a form field can hold: a number is
itself, the empty string converts to 0, a decimal string (optionally
negative) to its value, and any other string to NaN (`none`). -/
def jsToNumber : JSVal → Option Int
  | JSVal.num n => some n
  | JSVal.str s =>
    match s.data with
    | [] => some 0
    | '-' :: rest => (parseDigits rest).map (fun n => -(n : Int))
    | cs => (parseDigits cs).map (fun n => (n : Int))

/-- JS `a < b`: when both operands are strings the comparison is
lexicographic on code units (Lean's `String` order is exactly the
lexicographic order of its character list); otherwise both are
converted to numbers and any NaN makes the comparison false. -/
def jsLtV : JSVal → JSVal → Bool
  | JSVal.str s1, JSVal.str s2 => decide (s1.data < s2.data)
  | a, b =>
    match jsToNumber a, jsToNumber b with
    | some x, some y => decide (x < y)
    | _, _ => false

/-- JS `a <= b` with the same string/number rules as `jsLtV`. -/
def jsLeV : JSVal → JSVal → Bool
  | JSVal.str s1, JSVal.str s2 => decide (s1.data ≤ s2.data)
  | a, b =>
    match jsToNumber a, jsToNumber b with
    | some x, some y => decide (x ≤ y)
    | _, _ => false

/-- JS `a > b` is `b < a` under the same string/number rules. -/
def jsGtV (a b : JSVal) : Bool := jsLtV b a

/-- The current price sheet (`/api/settings/prices`, first row). -/
structure PriceSheet where
  order_price : Int
  shop_price : Int
  monthly_price : Int

/-- The order form state of `OrdersForm.tsx` (`formData`).
`delivery_amount` and `collected_qty` are optional to model the
defensive `|| 0` coalescing the charge calculator applies to them. -/
structure FormData where
  order_date : String
  customer_name : String
  customer_phone : String
  customer_address : String
  delivery_amount : Option Int
  can_qty : Int
  collected_qty : Option Int
  collected_date : String
  delivery_date : String
  delivery_time : String
  order_status : String
  notes : String

/-- Return value of `calculateReceiptData` in src/src/utils/receipt.ts. -/
structure ReceiptData where
  pricePerCan : Int
  subtotal : Int
  deliveryAmount : Int
  missingCans : Int
  missingCanCharge : Int
  totalAmount : Int
  orderId : String

/-- `calculateReceiptData` from src/src/utils/receipt.ts, lines 3-19. -/
def calculateReceiptData (formData : FormData) (currentPrices : PriceSheet)
    (id : String) : ReceiptData :=
  let pricePerCan := currentPrices.order_price
  let subtotal := formData.can_qty * pricePerCan
  let deliveryAmount := jsOrZeroI formData.delivery_amount
  let missingCans := max 0 (formData.can_qty - jsOrZeroI formData.collected_qty)
  let missingCanCharge := missingCans * 500
  let totalAmount := subtotal + deliveryAmount + missingCanCharge
  { pricePerCan := pricePerCan
    subtotal := subtotal
    deliveryAmount := deliveryAmount
    missingCans := missingCans
    missingCanCharge := missingCanCharge
    totalAmount := totalAmount
    orderId := id }

/-- The `Order` interface of the Orders page (src/unnamed/part_001):
`collected_qty`, `delivery_amount`, `notes` and `collected_date` are
optional fields. -/
structure Order where
  id : Int
  order_date : String
  customer_name : String
  customer_phone : String
  customer_address : String
  can_qty : Int
  collected_qty : Option Int
  delivery_amount : Option Int
  delivery_date : String
  delivery_time : String
  order_status : String
  notes : Option String
  collected_date : Option String

/-- The six charge figures computed inline by the Orders page receipt
paths. -/
structure ChargeFigures where
  pricePerCan : Int
  subtotal : Int
  deliveryAmount : Int
  missingCans : Int
  missingCanCharge : Int
  totalAmount : Int

/-- The inline charge computation of `generateOrderReceipt`
(src/unnamed/part_001, receipt-download path): order price tier,
subtotal, delivery default, missing-can penalty at 500 per can, total. -/
def generateOrderReceiptCharge (order : Order) (currentPrice : PriceSheet) :
    ChargeFigures :=
  let pricePerCan := currentPrice.order_price
  let subtotal := order.can_qty * pricePerCan
  let deliveryAmount := jsOrZeroI order.delivery_amount
  let missingCans := max 0 (order.can_qty - jsOrZeroI order.collected_qty)
  let missingCanCharge := missingCans * 500
  let totalAmount := subtotal + deliveryAmount + missingCanCharge
  { pricePerCan := pricePerCan
    subtotal := subtotal
    deliveryAmount := deliveryAmount
    missingCans := missingCans
    missingCanCharge := missingCanCharge
    totalAmount := totalAmount }

/-- The inline charge computation of `viewOrderReceipt`
(src/unnamed/part_001, receipt-preview path); the source duplicates the
download-path computation verbatim. -/
def viewOrderReceiptCharge (order : Order) (currentPrice : PriceSheet) :
    ChargeFigures :=
  let pricePerCan := currentPrice.order_price
  let subtotal := order.can_qty * pricePerCan
  let deliveryAmount := jsOrZeroI order.delivery_amount
  let missingCans := max 0 (order.can_qty - jsOrZeroI order.collected_qty)
  let missingCanCharge := missingCans * 500
  let totalAmount := subtotal + deliveryAmount + missingCanCharge
  { pricePerCan := pricePerCan
    subtotal := subtotal
    deliveryAmount := deliveryAmount
    missingCans := missingCans
    missingCanCharge := missingCanCharge
    totalAmount := totalAmount }

/-- Customer record as consumed by the DailyUpdate page;
`can_qty` is optional (`customer.can_qty || 0` in the source). -/
structure Customer where
  customer_id : String
  name : String
  phone_number : String
  customer_type : String
  can_qty : Option Int

/-- Per-customer row state of the DailyUpdate page; the quantity
fields hold input-box contents, `none` modelling a string that does
not parse to a number. -/
structure DailyUpdateState where
  delivered : Option Int
  collected : Option Int
  holding_status : Int
  notes : String

/-- The holding computation of `handleUpdateChange`
(src/unnamed/part_002, lines 119-124):
`baseHolding = previousDayHoldings[id] ?? (customer.can_qty || 0)` and
`holding_status = baseHolding + (parseInt(delivered) || 0) - (parseInt(collected) || 0)`. -/
def handleUpdateHolding (previousDayHolding : Option Int)
    (canQty : Option Int) (delivered collected : Option Int) : Int :=
  let deliveredQty := jsOrZeroI delivered
  let collectedQty := jsOrZeroI collected
  let baseHolding := previousDayHolding.getD (jsOrZeroI canQty)
  baseHolding + deliveredQty - collectedQty

/-- The default row built by `fetchInitialData` (src/unnamed/part_002,
lines 61-77): `prevHolding = prevDayHoldings[id] ?? (can_qty || 0)`,
delivered defaults to the allotment, collected to 0, and
`holding_status = prevHolding + initialDelivered - initialCollected`. -/
def defaultDailyUpdate (prevDayHolding : Option Int) (customer : Customer) :
    DailyUpdateState :=
  let prevHolding := prevDayHolding.getD (jsOrZeroI customer.can_qty)
  let initialDelivered := jsOrZeroI customer.can_qty
  let initialCollected : Int := 0
  { delivered := some initialDelivered
    collected := some initialCollected
    holding_status := prevHolding + initialDelivered - initialCollected
    notes := "" }

/-- Request body assembled by `handleSaveSingleUpdate`
(src/unnamed/part_002, lines 132-149). -/
structure UpdatePayload where
  customer_id : String
  date : String
  delivered_qty : Int
  collected_qty : Int
  notes : String

/-- `handleSaveSingleUpdate` builds its POST body with
`parseInt(updates[id]?.delivered) || 0` and the like; it performs no
validation of the values before posting. -/
def handleSaveSingleUpdateBody (customerId date : String)
    (s : Option DailyUpdateState) : UpdatePayload :=
  { customer_id := customerId
    date := date
    delivered_qty := jsOrZeroI (s.bind (fun u => u.delivered))
    collected_qty := jsOrZeroI (s.bind (fun u => u.collected))
    notes := (s.map (fun u => u.notes)).getD "" }

/-- One daily-ledger row as consumed by the Billing page. -/
structure LedgerRow where
  date : String
  delivered_qty : Int

/-- Price-tier resolution of `openLedger` (src/unnamed/part_001):
`shop_price` for shop customers, `monthly_price` for monthly, and
`order_price` otherwise. -/
def resolvePricePerCan (customer_type : String) (currentPrice : PriceSheet) :
    Int :=
  if customer_type = "shop" then currentPrice.shop_price
  else if customer_type = "monthly" then currentPrice.monthly_price
  else currentPrice.order_price

/-- `openLedger` total: `ledgerData.reduce((sum, d) => sum + Number(d.delivered_qty), 0)`. -/
def openLedgerTotalCans (ledgerData : List LedgerRow) : Int :=
  ledgerData.foldl (fun sum d => sum + d.delivered_qty) 0

/-- `openLedger` amount: `totalCans * pricePerCan`. -/
def openLedgerTotalAmount (ledgerData : List LedgerRow)
    (customer_type : String) (currentPrice : PriceSheet) : Int :=
  openLedgerTotalCans ledgerData * resolvePricePerCan customer_type currentPrice

/-- Monthly bill snapshot as served by the monthly-bills endpoint. -/
structure MonthlyBillSnapshot where
  total_cans_delivered : Int
  total_delivery_days : Nat
  price_per_can : Int
  bill_amount : Int

/-- Modelled from the spec: the monthly-bills aggregation backend (the
server route behind `/api/daily-updates/monthly-bills`) is not in the
repository; per the spec, `total_cans_delivered = Σ delivered_qty`,
`total_delivery_days` counts entries with `delivered_qty > 0`,
`price_per_can` is resolved from the customer type against the current
price sheet, and `bill_amount = total_cans_delivered × price_per_can`.
The price-tier resolution reuses `resolvePricePerCan`, which is in the
repository (`openLedger`). -/
def computeMonthlyBill (entries : List LedgerRow) (customer_type : String)
    (currentPrice : PriceSheet) : MonthlyBillSnapshot :=
  let price := resolvePricePerCan customer_type currentPrice
  let totalCans := (entries.map (fun e => e.delivered_qty)).sum
  { total_cans_delivered := totalCans
    total_delivery_days := (entries.filter (fun e => 0 < e.delivered_qty)).length
    price_per_can := price
    bill_amount := totalCans * price }

/-- Modelled from the spec: the `Customer` type declaration
(`src/types`) and the customer-management backend are not in the
repository.  Per the spec data model, `can_qty` is the "standard daily
allotment for recurring customers", so a non-recurring (order-type)
customer record carries no `can_qty` value. -/
def NonRecurringNoAllotment (c : Customer) : Prop :=
  c.customer_type = "order" → c.can_qty = none

/-- Request body of `POST /api/orders`
(src/server/routes/orders.routes.js); every field may be absent. -/
structure OrderPostBody where
  order_date : Option String
  customer_name : Option String
  customer_phone : Option String
  customer_address : Option String
  delivery_amount : Option Int
  can_qty : Option Int
  collected_qty : Option Int
  collected_date : Option String
  delivery_date : Option String
  delivery_time : Option String
  order_status : Option String
  notes : Option String

/-- The row handed to the `INSERT INTO orders` statement. -/
structure OrderInsertRow where
  order_date : String
  customer_name : String
  customer_phone : String
  customer_address : String
  delivery_amount : Option Int
  can_qty : Int
  collected_qty : Int
  collected_date : Option String
  delivery_date : String
  order_status : String
  notes : Option String
  delivery_time : String

/-- The guard of the order-creation route (orders.routes.js):
`!order_date || !customer_name || !customer_phone || !customer_address
|| can_qty === undefined || can_qty === null || !delivery_date ||
!delivery_time || !order_status`. -/
def postOrderMissingRequired (b : OrderPostBody) : Bool :=
  jsFalsyStr b.order_date || jsFalsyStr b.customer_name ||
  jsFalsyStr b.customer_phone || jsFalsyStr b.customer_address ||
  b.can_qty.isNone || jsFalsyStr b.delivery_date ||
  jsFalsyStr b.delivery_time || jsFalsyStr b.order_status

/-- `notes === '' ? null : notes` in the route handlers. -/
def processedNotes : Option String → Option String
  | some "" => none
  | x => x

/-- `router.post` of orders.routes.js (lines 41-79): respond 400
"Missing required fields" when the guard fires, otherwise insert the
row with `collected_qty || 0`; the guard guarantees the required
fields are present, so `getD` defaults are never reached on the ok
branch.  An error result models a response sent before any query. -/
def routerPostOrder (b : OrderPostBody) : Except String OrderInsertRow :=
  if postOrderMissingRequired b then Except.error "Missing required fields"
  else Except.ok
    { order_date := b.order_date.getD ""
      customer_name := b.customer_name.getD ""
      customer_phone := b.customer_phone.getD ""
      customer_address := b.customer_address.getD ""
      delivery_amount := b.delivery_amount
      can_qty := b.can_qty.getD 0
      collected_qty := jsOrZeroI b.collected_qty
      collected_date := b.collected_date
      delivery_date := b.delivery_date.getD ""
      order_status := b.order_status.getD ""
      notes := processedNotes b.notes
      delivery_time := b.delivery_time.getD "" }

/-- The live `formData` state of OrdersForm.tsx as `validate` sees it:
the quantity fields hold whatever `handleChange` last stored, a number
initially or after a fetch and the raw input string after an edit. -/
structure OrderFormState where
  order_date : String
  customer_name : String
  customer_phone : String
  customer_address : String
  delivery_amount : JSVal
  can_qty : JSVal
  collected_qty : JSVal
  collected_date : String
  delivery_date : String
  delivery_time : String
  order_status : String
  notes : String

/-- Error-key set of `validate` in src/src/pages/OrdersForm.tsx
(lines 115-136): the keys of the `newErrors` object, with the numeric
checks performed by the JS comparison operators on the runtime field
values.  In the source the two collected-quantity checks write the
same key, so the key is listed once when either fires. -/
def validateErrorKeys (isEditing : Bool) (formData : OrderFormState) :
    List String :=
  (if formData.customer_name = "" then ["customer_name"] else []) ++
  (if formData.customer_phone = "" then ["customer_phone"] else []) ++
  (if formData.customer_address = "" then ["customer_address"] else []) ++
  (if formData.order_date = "" then ["order_date"] else []) ++
  (if jsLeV formData.can_qty (JSVal.num 0) then ["can_qty"] else []) ++
  (if isEditing &&
      (jsLtV formData.collected_qty (JSVal.num 0) ||
       jsGtV formData.collected_qty formData.can_qty)
   then ["collected_qty"] else []) ++
  (if isEditing && jsGtV formData.collected_qty (JSVal.num 0) &&
      formData.collected_date = ""
   then ["collected_date"] else []) ++
  (if formData.delivery_date = "" then ["delivery_date"] else []) ++
  (if formData.delivery_time = "" then ["delivery_time"] else []) ++
  (if formData.order_status = "" then ["order_status"] else [])

/-- `validate` returns true exactly when `newErrors` stays empty;
`handleSubmit` posts the form only when `validate()` is true. -/
def validate (isEditing : Bool) (formData : OrderFormState) : Bool :=
  (validateErrorKeys isEditing formData).isEmpty

/-- Concrete non-recurring customer: order-type, no `can_qty` allotment. -/
def cOrderC2 : Customer :=
  { customer_id := "c9", name := "Ravi", phone_number := "9516000000"
    customer_type := "order", can_qty := none }

/-- Price sheet used for the monthly-aggregation scenario. -/
def pC4 : PriceSheet := { order_price := 20, shop_price := 25, monthly_price := 300 }

/-- March ledger entries with delivered quantities 2, 0, 3, 1. -/
def marchC4 : List LedgerRow :=
  [ { date := "2024-03-01", delivered_qty := 2 }
  , { date := "2024-03-02", delivered_qty := 0 }
  , { date := "2024-03-03", delivered_qty := 3 }
  , { date := "2024-03-04", delivered_qty := 1 } ]

/-- Form with can_qty 10 and collected_qty 2 (monotonicity witness, low side). -/
def f1C5 : FormData :=
  { order_date := "2024-03-01", customer_name := "A", customer_phone := "9"
    customer_address := "X", delivery_amount := some 0, can_qty := 10
    collected_qty := some 2, collected_date := "2024-03-03"
    delivery_date := "2024-03-02", delivery_time := "10:00"
    order_status := "delivered", notes := "" }

/-- Form with can_qty 10 and collected_qty 5 (monotonicity witness, high side). -/
def f2C5 : FormData :=
  { order_date := "2024-03-01", customer_name := "A", customer_phone := "9"
    customer_address := "X", delivery_amount := some 0, can_qty := 10
    collected_qty := some 5, collected_date := "2024-03-03"
    delivery_date := "2024-03-02", delivery_time := "10:00"
    order_status := "delivered", notes := "" }

/-- Order-page record for the charge-consistency witness. -/
def oC6 : Order :=
  { id := 7, order_date := "2024-03-01", customer_name := "Asha"
    customer_phone := "9425000000", customer_address := "Mandsaur"
    can_qty := 10, collected_qty := some 7, delivery_amount := some 50
    delivery_date := "2024-03-02", delivery_time := "10:00"
    order_status := "delivered", notes := none, collected_date := some "2024-03-05" }

/-- Form state agreeing with `oC6` on the charge inputs. -/
def fC6 : FormData :=
  { order_date := "2024-03-01", customer_name := "Asha", customer_phone := "9425000000"
    customer_address := "Mandsaur", delivery_amount := some 50, can_qty := 10
    collected_qty := some 7, collected_date := "2024-03-05"
    delivery_date := "2024-03-02", delivery_time := "10:00"
    order_status := "delivered", notes := "" }

/-- Price sheet for the charge-consistency witness. -/
def pC6 : PriceSheet := { order_price := 60, shop_price := 25, monthly_price := 300 }

/-- Order-creation body with every required field present but negative
quantities. -/
def bNegC8 : OrderPostBody :=
  { order_date := some "2024-03-01", customer_name := some "Asha"
    customer_phone := some "9425000000", customer_address := some "Mandsaur"
    delivery_amount := some 0, can_qty := some (-5), collected_qty := some (-3)
    collected_date := none, delivery_date := some "2024-03-02"
    delivery_time := some "10:00", order_status := some "pending", notes := none }

/-- Order-creation body with every field absent. -/
def bMissingC8 : OrderPostBody :=
  { order_date := none, customer_name := none, customer_phone := none
    customer_address := none, delivery_amount := none, can_qty := none
    collected_qty := none, collected_date := none, delivery_date := none
    delivery_time := none, order_status := none, notes := none }

/-- Cancelled-order form for the noninterference witness. -/
def f1C9 : FormData :=
  { order_date := "2024-01-01", customer_name := "Asha", customer_phone := "9425000000"
    customer_address := "Mandsaur", delivery_amount := some 50, can_qty := 10
    collected_qty := some 7, collected_date := "2024-01-09"
    delivery_date := "2024-01-02", delivery_time := "10:00"
    order_status := "cancelled", notes := "urgent" }

/-- Pending-order form differing from `f1C9` in every charge-irrelevant
field. -/
def f2C9 : FormData :=
  { order_date := "2025-06-20", customer_name := "Ravi", customer_phone := "9516784779"
    customer_address := "Labour Colony", delivery_amount := some 50, can_qty := 10
    collected_qty := some 7, collected_date := ""
    delivery_date := "2025-06-21", delivery_time := "17:30"
    order_status := "pending", notes := "" }

/-- Price sheet for the noninterference witness, first variant. -/
def p1C9 : PriceSheet := { order_price := 60, shop_price := 25, monthly_price := 300 }

/-- Price sheet agreeing with `p1C9` only on `order_price`. -/
def p2C9 : PriceSheet := { order_price := 60, shop_price := 99, monthly_price := 12 }

/-- Edit-mode form state after the user typed "9" into the can
quantity field and "10" into the collected quantity field: both fields
hold the raw input strings. -/
def fBugC10 : OrderFormState :=
  { order_date := "2024-03-01", customer_name := "Asha", customer_phone := "9425000000"
    customer_address := "Mandsaur", delivery_amount := JSVal.num 50
    can_qty := JSVal.str "9", collected_qty := JSVal.str "10"
    collected_date := "2024-03-05", delivery_date := "2024-03-02"
    delivery_time := "10:00", order_status := "delivered", notes := "" }

/-- The same submission with the quantities held as the numbers 9 and
10, as the TS field types declare. -/
def fNumC10 : OrderFormState :=
  { order_date := "2024-03-01", customer_name := "Asha", customer_phone := "9425000000"
    customer_address := "Mandsaur", delivery_amount := JSVal.num 50
    can_qty := JSVal.num 9, collected_qty := JSVal.num 10
    collected_date := "2024-03-05", delivery_date := "2024-03-02"
    delivery_time := "10:00", order_status := "delivered", notes := "" }

/-- JS `v || 0` on a defined number is the number itself. -/
theorem jsOrZeroI_some (v : Int) : jsOrZeroI (some v) = v := by
  by_cases h : v = 0 <;> simp [jsOrZeroI, h]

/-- JS `x || 0` on an undefined value is 0. -/
theorem jsOrZeroI_none : jsOrZeroI none = 0 := rfl

/-- JS `x || 0` coincides with defaulting an absent value to 0. -/
theorem jsOrZeroI_eq_getD (x : Option Int) : jsOrZeroI x = x.getD 0 := by
  cases x with
  | none => rfl
  | some v => simp [jsOrZeroI_some]

/-- Folding the ledger sum from any start equals the start plus the
mapped sum. -/
theorem openLedgerTotalCans_aux (l : List LedgerRow) (init : Int) :
    l.foldl (fun sum d => sum + d.delivered_qty) init
      = init + (l.map (fun e => e.delivered_qty)).sum := by
  induction l generalizing init with
  | nil => simp
  | cons hd tl ih => simp [ih, add_assoc]

/-- The `openLedger` reduce equals the sum of delivered quantities. -/
theorem openLedgerTotalCans_eq_sum (l : List LedgerRow) :
    openLedgerTotalCans l = (l.map (fun e => e.delivered_qty)).sum := by
  simpa using openLedgerTotalCans_aux l 0

/-- Claim C1: when the previous day holds an entry with holding h, the
daily update computes the new holding as h plus the delivered quantity
minus the collected quantity, for every customer allotment. -/
theorem C1_balance_carry_forward (h del col : Int) (canQty : Option Int) :
    handleUpdateHolding (some h) canQty (some del) (some col) = h + del - col := by
  simp [handleUpdateHolding, jsOrZeroI_some]

/-- Claim C2: with no previous-day entry the prior holding is seeded
from the customer's `can_qty` baseline via the `|| 0` default, so a
customer with a recorded allotment q is seeded with q and a
non-recurring (order-type) customer, which per the spec data model
carries no allotment, is seeded with 0. -/
theorem C2_seed_from_baseline (c : Customer) (del col : Int)
    (hmodel : NonRecurringNoAllotment c) :
    handleUpdateHolding none c.can_qty (some del) (some col)
      = jsOrZeroI c.can_qty + del - col
  ∧ (∀ q, c.can_qty = some q →
      handleUpdateHolding none c.can_qty (some del) (some col) = q + del - col)
  ∧ (c.customer_type = "order" →
      handleUpdateHolding none c.can_qty (some del) (some col) = 0 + del - col) := by
  refine ⟨?_, ?_, ?_⟩
  · simp [handleUpdateHolding, jsOrZeroI_some]
  · intro q hq
    simp [handleUpdateHolding, jsOrZeroI_some, hq]
  · intro horder
    rw [hmodel horder]
    simp [handleUpdateHolding, jsOrZeroI_some, jsOrZeroI_none]

/-- Witness for C2 at a concrete order-type customer with no allotment,
delivered 3 and collected 1. -/
theorem C2_seed_witness :
    NonRecurringNoAllotment cOrderC2
  ∧ cOrderC2.customer_type = "order"
  ∧ handleUpdateHolding none cOrderC2.can_qty (some 3) (some 1) = 0 + 3 - 1 := by
  have hm : NonRecurringNoAllotment cOrderC2 := fun _ => rfl
  exact ⟨hm, rfl, (C2_seed_from_baseline cOrderC2 3 1 hm).2.2 rfl⟩

/-- Claim C3: `calculateReceiptData` computes subtotal = can_qty times
order price, missing cans as the non-negative shortfall with absent
collected_qty defaulting to 0, the penalty at 500 per missing can, the
delivery amount defaulting to 0 when absent, and the total as their
sum; on can_qty 10, collected 7, delivery 50, order price 60 it returns
subtotal 600, missing 3, penalty 1500, total 2150. -/
theorem C3_order_charge (f : FormData) (p : PriceSheet) (id : String) :
    ((calculateReceiptData f p id).subtotal = f.can_qty * p.order_price
    ∧ (calculateReceiptData f p id).missingCans
        = max 0 (f.can_qty - f.collected_qty.getD 0)
    ∧ (calculateReceiptData f p id).missingCanCharge
        = max 0 (f.can_qty - f.collected_qty.getD 0) * 500
    ∧ (calculateReceiptData f p id).deliveryAmount = f.delivery_amount.getD 0
    ∧ (calculateReceiptData f p id).totalAmount
        = (calculateReceiptData f p id).subtotal
          + (calculateReceiptData f p id).deliveryAmount
          + (calculateReceiptData f p id).missingCanCharge)
  ∧ calculateReceiptData
      { order_date := "2024-03-01", customer_name := "Asha"
        customer_phone := "9425000000", customer_address := "Mandsaur"
        delivery_amount := some 50, can_qty := 10, collected_qty := some 7
        collected_date := "", delivery_date := "2024-03-02"
        delivery_time := "10:00", order_status := "pending", notes := "" }
      { order_price := 60, shop_price := 25, monthly_price := 300 } "1"
    = { pricePerCan := 60, subtotal := 600, deliveryAmount := 50
        missingCans := 3, missingCanCharge := 1500, totalAmount := 2150
        orderId := "1" } := by
  refine ⟨⟨?_, ?_, ?_, ?_, ?_⟩, rfl⟩ <;>
    simp [calculateReceiptData, jsOrZeroI_eq_getD]

/-- Claim C7: the daily holding computation never clamps at zero: it
always returns base + delivered - collected, and on prior holding 2,
delivered 1, collected 5 (collection exceeding prior plus delivered)
the stored and displayed holding is the negative value -2, not 0. -/
theorem C7_no_clamp :
    (∀ (h del col : Int) (canQty : Option Int),
       handleUpdateHolding (some h) canQty (some del) (some col) = h + del - col)
  ∧ handleUpdateHolding (some 2) none (some 1) (some 5) = -2
  ∧ (2 + 1 : Int) < 5 ∧ (-2 : Int) < 0 := by
  refine ⟨?_, by decide, by decide, by decide⟩
  intro h del col canQty
  simp [handleUpdateHolding, jsOrZeroI_some]

/-- Claim C4: the monthly aggregation sums delivered quantities (equal
to the `openLedger` reduce), counts delivery days as entries with
delivered_qty > 0, resolves the price tier by customer type (shop
price for shop, monthly price for monthly, order price otherwise), and
bills total cans times the tier price; on March entries 2, 0, 3, 1 for
a monthly customer at monthly price 300 it yields 6 cans, 3 delivery
days and bill amount 1800. -/
theorem C4_monthly_aggregation (entries : List LedgerRow) (ct : String)
    (p : PriceSheet) :
    ((computeMonthlyBill entries ct p).total_cans_delivered
        = openLedgerTotalCans entries
    ∧ (computeMonthlyBill entries ct p).total_delivery_days
        = (entries.filter (fun e => 0 < e.delivered_qty)).length
    ∧ (computeMonthlyBill entries ct p).price_per_can = resolvePricePerCan ct p
    ∧ (computeMonthlyBill entries ct p).bill_amount
        = openLedgerTotalAmount entries ct p
    ∧ resolvePricePerCan "shop" p = p.shop_price
    ∧ resolvePricePerCan "monthly" p = p.monthly_price
    ∧ (ct ≠ "shop" → ct ≠ "monthly" → resolvePricePerCan ct p = p.order_price))
  ∧ computeMonthlyBill marchC4 "monthly" pC4
      = { total_cans_delivered := 6, total_delivery_days := 3
          price_per_can := 300, bill_amount := 1800 } := by
  refine ⟨⟨?_, rfl, rfl, ?_, ?_, ?_, ?_⟩, rfl⟩
  · simp [computeMonthlyBill, openLedgerTotalCans_eq_sum]
  · simp [computeMonthlyBill, openLedgerTotalAmount, openLedgerTotalCans_eq_sum]
  · simp [resolvePricePerCan]
  · simp [resolvePricePerCan]
  · intro h1 h2
    simp [resolvePricePerCan, h1, h2]

/-- Witness for C4: an order-type customer is neither shop nor monthly
and resolves to the order price. -/
theorem C4_aggregation_witness :
    ("order" ≠ "shop") ∧ ("order" ≠ "monthly")
  ∧ resolvePricePerCan "order" pC4 = pC4.order_price :=
  ⟨by decide, by decide,
   (C4_monthly_aggregation [] "order" pC4).1.2.2.2.2.2.2 (by decide) (by decide)⟩

/-- Counterexample for C5 as stated: over the charge calculator's
actual domain the missing-can count does not equal can_qty whenever
collected_qty is 0 — at can_qty = -1, collected_qty = 0 the computed
missing-can count is 0, not -1. -/
theorem C5_claim_counterexample :
    ¬ (∀ (f : FormData) (p : PriceSheet) (id : String),
        f.collected_qty.getD 0 = 0 →
        (calculateReceiptData f p id).missingCans = f.can_qty) := by
  intro hclaim
  exact absurd
    (hclaim
      { order_date := "2024-03-01", customer_name := "Asha"
        customer_phone := "9425000000", customer_address := "Mandsaur"
        delivery_amount := some 0, can_qty := -1, collected_qty := some 0
        collected_date := "", delivery_date := "2024-03-02"
        delivery_time := "10:00", order_status := "pending", notes := "" }
      { order_price := 60, shop_price := 25, monthly_price := 300 } "1" rfl)
    (by decide)

/-- Claim C5 amended: for a fixed can_qty the missing-can count is
non-increasing as collected_qty increases, and when can_qty is
non-negative it equals can_qty at collected_qty = 0. -/
theorem C5_missing_monotone (f1 f2 : FormData) (p : PriceSheet) (id : String)
    (hq : f2.can_qty = f1.can_qty)
    (hc : f1.collected_qty.getD 0 ≤ f2.collected_qty.getD 0) :
    (calculateReceiptData f2 p id).missingCans
      ≤ (calculateReceiptData f1 p id).missingCans
  ∧ (0 ≤ f1.can_qty → f1.collected_qty.getD 0 = 0 →
      (calculateReceiptData f1 p id).missingCans = f1.can_qty) := by
  constructor
  · simp only [calculateReceiptData, jsOrZeroI_eq_getD, hq]
    exact max_le_max le_rfl (by omega)
  · intro h0 hz
    simp only [calculateReceiptData, jsOrZeroI_eq_getD, hz, sub_zero]
    exact max_eq_right h0

/-- Witness for C5 at can_qty 10 with collected quantities 2 and 5. -/
theorem C5_missing_monotone_witness :
    f2C5.can_qty = f1C5.can_qty
  ∧ f1C5.collected_qty.getD 0 ≤ f2C5.collected_qty.getD 0
  ∧ ((calculateReceiptData f2C5 pC6 "1").missingCans
        ≤ (calculateReceiptData f1C5 pC6 "1").missingCans
     ∧ (0 ≤ f1C5.can_qty → f1C5.collected_qty.getD 0 = 0 →
         (calculateReceiptData f1C5 pC6 "1").missingCans = f1C5.can_qty)) :=
  ⟨rfl, by decide, C5_missing_monotone f1C5 f2C5 pC6 "1" rfl (by decide)⟩

/-- Claim C6: the receipt-download path, the receipt-preview path and
the shared `calculateReceiptData` helper compute identical charge
figures whenever they see the same can quantity, collected quantity
and delivery amount. -/
theorem C6_charge_consistency (o : Order) (f : FormData) (p : PriceSheet)
    (id : String) (h1 : f.can_qty = o.can_qty)
    (h2 : f.collected_qty = o.collected_qty)
    (h3 : f.delivery_amount = o.delivery_amount) :
    generateOrderReceiptCharge o p = viewOrderReceiptCharge o p
  ∧ (calculateReceiptData f p id).pricePerCan
      = (generateOrderReceiptCharge o p).pricePerCan
  ∧ (calculateReceiptData f p id).subtotal
      = (generateOrderReceiptCharge o p).subtotal
  ∧ (calculateReceiptData f p id).deliveryAmount
      = (generateOrderReceiptCharge o p).deliveryAmount
  ∧ (calculateReceiptData f p id).missingCans
      = (generateOrderReceiptCharge o p).missingCans
  ∧ (calculateReceiptData f p id).missingCanCharge
      = (generateOrderReceiptCharge o p).missingCanCharge
  ∧ (calculateReceiptData f p id).totalAmount
      = (generateOrderReceiptCharge o p).totalAmount := by
  refine ⟨rfl, ?_, ?_, ?_, ?_, ?_, ?_⟩ <;>
    simp [calculateReceiptData, generateOrderReceiptCharge, h1, h2, h3]

/-- Witness for C6 at a concrete order and its matching form state. -/
theorem C6_charge_consistency_witness :
    fC6.can_qty = oC6.can_qty
  ∧ fC6.collected_qty = oC6.collected_qty
  ∧ fC6.delivery_amount = oC6.delivery_amount
  ∧ (generateOrderReceiptCharge oC6 pC6 = viewOrderReceiptCharge oC6 pC6
     ∧ (calculateReceiptData fC6 pC6 "7").pricePerCan
         = (generateOrderReceiptCharge oC6 pC6).pricePerCan
     ∧ (calculateReceiptData fC6 pC6 "7").subtotal
         = (generateOrderReceiptCharge oC6 pC6).subtotal
     ∧ (calculateReceiptData fC6 pC6 "7").deliveryAmount
         = (generateOrderReceiptCharge oC6 pC6).deliveryAmount
     ∧ (calculateReceiptData fC6 pC6 "7").missingCans
         = (generateOrderReceiptCharge oC6 pC6).missingCans
     ∧ (calculateReceiptData fC6 pC6 "7").missingCanCharge
         = (generateOrderReceiptCharge oC6 pC6).missingCanCharge
     ∧ (calculateReceiptData fC6 pC6 "7").totalAmount
         = (generateOrderReceiptCharge oC6 pC6).totalAmount) :=
  ⟨rfl, rfl, rfl, C6_charge_consistency oC6 fC6 pC6 "7" rfl rfl rfl⟩

/-- Claim C9: the charge figures of `calculateReceiptData` depend only
on can_qty, collected_qty, delivery_amount and the sheet's order
price; order status (including cancelled), notes, customer fields,
dates, the other price tiers and the order id never affect them. -/
theorem C9_charge_noninterference (f1 f2 : FormData) (p1 p2 : PriceSheet)
    (id1 id2 : String) (hq : f1.can_qty = f2.can_qty)
    (hc : f1.collected_qty = f2.collected_qty)
    (hd : f1.delivery_amount = f2.delivery_amount)
    (hp : p1.order_price = p2.order_price) :
    (calculateReceiptData f1 p1 id1).pricePerCan
      = (calculateReceiptData f2 p2 id2).pricePerCan
  ∧ (calculateReceiptData f1 p1 id1).subtotal
      = (calculateReceiptData f2 p2 id2).subtotal
  ∧ (calculateReceiptData f1 p1 id1).deliveryAmount
      = (calculateReceiptData f2 p2 id2).deliveryAmount
  ∧ (calculateReceiptData f1 p1 id1).missingCans
      = (calculateReceiptData f2 p2 id2).missingCans
  ∧ (calculateReceiptData f1 p1 id1).missingCanCharge
      = (calculateReceiptData f2 p2 id2).missingCanCharge
  ∧ (calculateReceiptData f1 p1 id1).totalAmount
      = (calculateReceiptData f2 p2 id2).totalAmount := by
  refine ⟨?_, ?_, ?_, ?_, ?_, ?_⟩ <;>
    simp [calculateReceiptData, hq, hc, hd, hp]

/-- Witness for C9: a cancelled and a pending order agreeing only on
the four charge inputs, priced by sheets agreeing only on the order
tier, produce the same figures. -/
theorem C9_noninterference_witness :
    f1C9.order_status = "cancelled" ∧ f2C9.order_status = "pending"
  ∧ f1C9.can_qty = f2C9.can_qty ∧ f1C9.collected_qty = f2C9.collected_qty
  ∧ f1C9.delivery_amount = f2C9.delivery_amount
  ∧ p1C9.order_price = p2C9.order_price
  ∧ ((calculateReceiptData f1C9 p1C9 "1").pricePerCan
        = (calculateReceiptData f2C9 p2C9 "2").pricePerCan
     ∧ (calculateReceiptData f1C9 p1C9 "1").subtotal
        = (calculateReceiptData f2C9 p2C9 "2").subtotal
     ∧ (calculateReceiptData f1C9 p1C9 "1").deliveryAmount
        = (calculateReceiptData f2C9 p2C9 "2").deliveryAmount
     ∧ (calculateReceiptData f1C9 p1C9 "1").missingCans
        = (calculateReceiptData f2C9 p2C9 "2").missingCans
     ∧ (calculateReceiptData f1C9 p1C9 "1").missingCanCharge
        = (calculateReceiptData f2C9 p2C9 "2").missingCanCharge
     ∧ (calculateReceiptData f1C9 p1C9 "1").totalAmount
        = (calculateReceiptData f2C9 p2C9 "2").totalAmount) :=
  ⟨rfl, rfl, rfl, rfl, rfl, rfl,
   C9_charge_noninterference f1C9 f2C9 p1C9 p2C9 "1" "2" rfl rfl rfl rfl⟩

/-- Counterexample for C8 as stated: an order-creation request with
negative can and collected quantities is not rejected — the route
accepts it and inserts the negative values; likewise the daily-ledger
save posts a negative delivered quantity without any validation. -/
theorem C8_claim_counterexample :
    (∃ row, routerPostOrder bNegC8 = Except.ok row
       ∧ row.can_qty = -5 ∧ row.collected_qty = -3)
  ∧ (∀ e, routerPostOrder bNegC8 ≠ Except.error e)
  ∧ (handleSaveSingleUpdateBody "c1" "2024-03-01"
      (some { delivered := some (-3), collected := some 0
              holding_status := 0, notes := "" })).delivered_qty = -3 := by
  refine ⟨⟨_, rfl, rfl, rfl⟩, ?_, rfl⟩
  intro e hcontra
  rw [show routerPostOrder bNegC8 = Except.ok
        { order_date := "2024-03-01", customer_name := "Asha"
          customer_phone := "9425000000", customer_address := "Mandsaur"
          delivery_amount := some 0, can_qty := -5, collected_qty := -3
          collected_date := none, delivery_date := "2024-03-02"
          order_status := "pending", notes := none
          delivery_time := "10:00" } from rfl] at hcontra
  exact Except.noConfusion hcontra

/-- Claim C8 amended: the order-creation route rejects a request — with
a 400 "Missing required fields" error and before any write — exactly
when a required field is absent or blank; a request with all required
fields present is written even when its quantities are negative, with
can_qty inserted as sent and collected_qty defaulted by `|| 0`. -/
theorem C8_required_fields_only (b : OrderPostBody) :
    (postOrderMissingRequired b = true →
       routerPostOrder b = Except.error "Missing required fields")
  ∧ (postOrderMissingRequired b = false → ∀ q, b.can_qty = some q →
       ∃ row, routerPostOrder b = Except.ok row ∧ row.can_qty = q
         ∧ row.collected_qty = jsOrZeroI b.collected_qty) := by
  constructor
  · intro hm
    simp [routerPostOrder, hm]
  · intro hm q hq
    refine ⟨{ order_date := b.order_date.getD ""
              customer_name := b.customer_name.getD ""
              customer_phone := b.customer_phone.getD ""
              customer_address := b.customer_address.getD ""
              delivery_amount := b.delivery_amount
              can_qty := b.can_qty.getD 0
              collected_qty := jsOrZeroI b.collected_qty
              collected_date := b.collected_date
              delivery_date := b.delivery_date.getD ""
              order_status := b.order_status.getD ""
              notes := processedNotes b.notes
              delivery_time := b.delivery_time.getD "" }, ?_, ?_, rfl⟩
    · simp [routerPostOrder, hm]
    · simp [hq]

/-- Witness for C8: the all-absent body is rejected with the missing
fields error, while the negative-quantity body is written with
can_qty -5. -/
theorem C8_required_fields_witness :
    postOrderMissingRequired bMissingC8 = true
  ∧ routerPostOrder bMissingC8 = Except.error "Missing required fields"
  ∧ postOrderMissingRequired bNegC8 = false
  ∧ bNegC8.can_qty = some (-5)
  ∧ ∃ row, routerPostOrder bNegC8 = Except.ok row ∧ row.can_qty = -5
      ∧ row.collected_qty = jsOrZeroI bNegC8.collected_qty :=
  ⟨rfl, (C8_required_fields_only bMissingC8).1 rfl, rfl, rfl,
   (C8_required_fields_only bNegC8).2 rfl (-5) rfl⟩

/-- Claim C10 failing input: after an edit the quantity fields hold
the raw input strings, so the collected-versus-delivered check
compares them lexicographically.  With can_qty "9" and collected_qty
"10" (numeric values 9 and 10, collection date supplied) `validate`
accepts the edit-mode submission although the pending collection
9 - 10 is negative, while the very same quantities held as numbers —
as the declared field types and the check's own error message intend —
are rejected. -/
theorem C10_string_comparison_bug :
    validate true fBugC10 = true
  ∧ fBugC10.can_qty = JSVal.str "9"
  ∧ fBugC10.collected_qty = JSVal.str "10"
  ∧ jsToNumber fBugC10.can_qty = some 9
  ∧ jsToNumber fBugC10.collected_qty = some 10
  ∧ (9 : Int) - 10 < 0
  ∧ validate true fNumC10 = false := by
  refine ⟨by decide, rfl, rfl, by decide, by decide, by decide, by decide⟩

end Kanchan
